import Mathlib

/-!
Verification of `omnipath-secondary-adapter`, file
`src/omnipath_secondary_adapter/models.py`.

The file declares pandera DataFrame models (schema contracts) for OmniPath
tables and a helper that maps pandera column dtypes to pandas storage dtypes.
We embed:

* the pandera scalar dtype hierarchy (as far as the six categories listed in
  `_map_pandera_to_pandas_type` and a few refined subtypes and outside types
  are concerned);
* `_map_pandera_to_pandas_type` (the ordered isinstance dispatch with the
  `DEFAULT_PANDAS_TYPE` fallback);
* `BasePanderaModel._return_pandas_dtypes` (the dict comprehension over the
  schema columns with the `None in dtypes.values()` check);
* the `lru_cache` memoization wrapped around `_return_pandas_dtypes`
  (functools is not part of this repository; its behaviour is modelled from
  the spec);
* the column declarations of `NetworksPanderaModel` and
  `EnzymePTMPanderaModel` with their nullability flags and the shared
  `Config` (strict = True, coerce = False);
* table validation against a contract.  No call to pandera `validate` occurs
  in the repository sources, so validation is modelled from the spec
  (section 4.2 of spec.md).
-/

namespace Omnipath

/-- The six base pandera dtype categories that appear as keys of the
`mapping` dict in `_map_pandera_to_pandas_type`:
`pa.dtypes.String`, `pa.dtypes.Int`, `pa.dtypes.Float`, `pa.dtypes.Bool`,
`pa.dtypes.DateTime`, `pa.dtypes.Category`. -/
inductive PaCategory where
  | string
  | int
  | float
  | bool
  | dateTime
  | category
deriving DecidableEq, Repr

/-- Pandera scalar dtype instances, covering the base category instances,
refined subtypes (pandera declares `Int64 < Int`, `Int32 < Int64`, …,
`Float64 < Float128 < Float`, …) and dtypes outside the six mapped
categories (`Decimal`, `Complex`, `Timedelta`). -/
inductive PanderaDtype where
  | string
  | int
  | int64
  | int32
  | int16
  | int8
  | float
  | float64
  | float32
  | bool
  | dateTime
  | category
  | decimal
  | complex
  | timedelta
deriving DecidableEq, Repr

/-- The Python `isinstance(pandera_datatype, base_type)` test, restricted to
the six base classes used in the `mapping` dict.  Refined subtypes are
instances of their ancestor category; `decimal`, `complex` and `timedelta`
are instances of none of the six (in pandera they derive from `_Number` or
`DataType` directly, which are not in the dict). -/
def isinstanceOf (t : PanderaDtype) (c : PaCategory) : Bool :=
  match t, c with
  | .string, .string => true
  | .int, .int | .int64, .int | .int32, .int | .int16, .int | .int8, .int => true
  | .float, .float | .float64, .float | .float32, .float => true
  | .bool, .bool => true
  | .dateTime, .dateTime => true
  | .category, .category => true
  | _, _ => false

/-- `DEFAULT_PANDAS_TYPE = "object"` (models.py line 19). -/
def DEFAULT_PANDAS_TYPE : String := "object"

/-- `BASE_SCHEMA_NAME = "BaseSchema"` (models.py line 18). -/
def BASE_SCHEMA_NAME : String := "BaseSchema"

/-- The `mapping` dict of `_map_pandera_to_pandas_type`, in insertion
order (Python dicts iterate in insertion order). -/
def mapping : List (PaCategory × String) :=
  [ (.string,   "string"),
    (.int,      "Int64"),
    (.float,    "Float64"),
    (.bool,     "boolean"),
    (.dateTime, "datetime64[ns]"),
    (.category, "category") ]

/-- The `for base_type, pandas_type in mapping.items(): if isinstance(...):
return pandas_type` loop, followed by `return DEFAULT_PANDAS_TYPE`. -/
def mapLoop : List (PaCategory × String) → PanderaDtype → String
  | [], _ => DEFAULT_PANDAS_TYPE
  | (b, p) :: rest, t => if isinstanceOf t b then p else mapLoop rest t

/-- `_map_pandera_to_pandas_type` (models.py lines 22-46).  The Python
function is dynamically typed; the result is wrapped in `Option` so the
caller's `None in dtypes.values()` check can be stated: every return path
of the source yields a string, never `None`. -/
def _map_pandera_to_pandas_type (pandera_datatype : PanderaDtype) : Option String :=
  some (mapLoop mapping pandera_datatype)

/-- One declared column of a pandera DataFrame model: field name, the
pandera dtype of the `Series[...]` annotation, and the `nullable` flag of
`pa.Field(...)`. -/
structure ColumnContract where
  name : String
  dtype : PanderaDtype
  nullable : Bool
deriving DecidableEq, Repr

/-- A schema contract is the ordered list of its declared columns
(`cls.to_schema().columns` preserves declaration order). -/
abbrev Contract := List ColumnContract

/-- `BasePanderaModel._return_pandas_dtypes` (models.py lines 56-66), the
body under the decorators: build `dtypes` by applying
`_map_pandera_to_pandas_type` to every column dtype in declaration order,
raise `ValueError("Unsupported Pandera data type found.")` when `None`
occurs among the values, otherwise return `dtypes`. -/
def _return_pandas_dtypes (cols : Contract) :
    Except String (List (String × Option String)) :=
  let dtypes := cols.map (fun c => (c.name, _map_pandera_to_pandas_type c.dtype))
  if (dtypes.map Prod.snd).contains none then
    Except.error "Unsupported Pandera data type found."
  else
    Except.ok dtypes

/-- The shared `Config` flags of the models (models.py lines 68-70 and the
per-model `Config(BasePanderaModel.Config)` with `name = BASE_SCHEMA_NAME`). -/
structure ModelConfig where
  strict : Bool
  coerce : Bool
  configName : Option String
deriving DecidableEq, Repr

/-- `BasePanderaModel.Config`: `strict = True`, `coerce = False`. -/
def basePanderaConfig : ModelConfig :=
  { strict := true, coerce := false, configName := none }

/-- `NetworksPanderaModel.Config`. -/
def networksConfig : ModelConfig :=
  { basePanderaConfig with configName := some BASE_SCHEMA_NAME }

/-- `EnzymePTMPanderaModel.Config`. -/
def enzymePTMConfig : ModelConfig :=
  { basePanderaConfig with configName := some BASE_SCHEMA_NAME }

/-- The 36 column declarations of `NetworksPanderaModel` (models.py lines
73-121), in declaration order.  `Series[str]` resolves to a pandera engine
dtype that is an instance of `pa.dtypes.String`, `Series[bool]` to an
instance of `pa.dtypes.Bool`, `Series[int]` to the 64-bit integer engine
dtype, an instance of `pa.dtypes.Int`. -/
def networksColumns : Contract :=
  [ ⟨"source", .string, true⟩,
    ⟨"target", .string, true⟩,
    ⟨"source_genesymbol", .string, false⟩,
    ⟨"target_genesymbol", .string, false⟩,
    ⟨"is_directed", .bool, false⟩,
    ⟨"is_stimulation", .bool, false⟩,
    ⟨"is_inhibition", .bool, false⟩,
    ⟨"consensus_direction", .bool, false⟩,
    ⟨"consensus_stimulation", .bool, false⟩,
    ⟨"consensus_inhibition", .bool, false⟩,
    ⟨"sources", .string, false⟩,
    ⟨"references", .string, true⟩,
    ⟨"omnipath", .bool, false⟩,
    ⟨"kinaseextra", .bool, false⟩,
    ⟨"ligrecextra", .bool, false⟩,
    ⟨"pathwayextra", .bool, false⟩,
    ⟨"mirnatarget", .bool, false⟩,
    ⟨"dorothea", .bool, false⟩,
    ⟨"collectri", .bool, false⟩,
    ⟨"tf_target", .bool, true⟩,
    ⟨"lncrna_mrna", .bool, false⟩,
    ⟨"tf_mirna", .bool, false⟩,
    ⟨"small_molecule", .bool, false⟩,
    ⟨"dorothea_curated", .bool, true⟩,
    ⟨"dorothea_chipseq", .bool, true⟩,
    ⟨"dorothea_tfbs", .bool, true⟩,
    ⟨"dorothea_coexp", .bool, true⟩,
    ⟨"dorothea_level", .string, true⟩,
    ⟨"type", .string, false⟩,
    ⟨"curation_effort", .int64, false⟩,
    ⟨"extra_attrs", .string, true⟩,
    ⟨"evidences", .string, true⟩,
    ⟨"ncbi_tax_id_source", .int64, false⟩,
    ⟨"entity_type_source", .string, false⟩,
    ⟨"ncbi_tax_id_target", .int64, false⟩,
    ⟨"entity_type_target", .string, false⟩ ]

/-- The 12 column declarations of `EnzymePTMPanderaModel` (models.py lines
124-148), in declaration order. -/
def enzymePTMColumns : Contract :=
  [ ⟨"enzyme", .string, false⟩,
    ⟨"enzyme_genesymbol", .string, false⟩,
    ⟨"substrate", .string, false⟩,
    ⟨"substrate_genesymbol", .string, false⟩,
    ⟨"isoforms", .string, false⟩,
    ⟨"residue_type", .string, false⟩,
    ⟨"residue_offset", .int64, false⟩,
    ⟨"modification", .string, false⟩,
    ⟨"sources", .string, false⟩,
    ⟨"references", .string, true⟩,
    ⟨"curation_effort", .int64, false⟩,
    ⟨"ncbi_tax_id", .int64, false⟩ ]

/-- A scalar cell value of an input table (the logical-type universe the
contracts of this repository use: text, integer, boolean values). -/
inductive PyValue where
  | str (s : String)
  | int (n : Int)
  | bool (b : Bool)
deriving DecidableEq, Repr

/-- Whether a (non-null) value is already an instance of the declared
logical type of a column — the no-coercion membership test of spec
section 4.2 (a numeric-looking string does not satisfy an Integer
column). -/
def valueMatches (v : PyValue) (t : PanderaDtype) : Bool :=
  match v with
  | .str _ => isinstanceOf t .string
  | .int _ => isinstanceOf t .int
  | .bool _ => isinstanceOf t .bool

/-- Columnar table: each entry is a column name with its cells, a cell
being a value or null (`none`). -/
abbrev Table := List (String × List (Option PyValue))

/-- The aggregate validation error of spec section 7: every violation
found in one pass — missing columns, unexpected columns, per-column type
mismatches with row identifiers, per-column null violations. -/
structure SchemaValidationError where
  missing : List String
  unexpected : List String
  typeMismatches : List (String × Nat)
  nullViolations : List (String × Nat)
deriving DecidableEq, Repr

/-- Row indices (counting from `i`) of cells of one table column that hold
a non-null value not matching the declared dtype. -/
def cellTypeMismatches (t : PanderaDtype) : List (Option PyValue) → Nat → List Nat
  | [], _ => []
  | some v :: rest, i =>
    if valueMatches v t then cellTypeMismatches t rest (i + 1)
    else i :: cellTypeMismatches t rest (i + 1)
  | none :: rest, i => cellTypeMismatches t rest (i + 1)

/-- Row indices (counting from `i`) of cells of one table column that are
null. -/
def cellNulls : List (Option PyValue) → Nat → List Nat
  | [], _ => []
  | some _ :: rest, i => cellNulls rest (i + 1)
  | none :: rest, i => i :: cellNulls rest (i + 1)

/-- All type-mismatch violations of a table against a contract: for every
table column matching a declared column, every non-null cell whose value
is not an instance of the declared dtype. -/
def typeViolations (C : Contract) (T : Table) : List (String × Nat) :=
  (T.map (fun col =>
    ((C.filter (fun c => c.name == col.1)).map (fun c =>
      (cellTypeMismatches c.dtype col.2 0).map (fun i => (col.1, i)))).flatten)).flatten

/-- All null violations of a table against a contract: for every table
column matching a declared column with `nullable = false`, every null
cell. -/
def nullViolations (C : Contract) (T : Table) : List (String × Nat) :=
  (T.map (fun col =>
    ((C.filter (fun c => c.name == col.1 && !c.nullable)).map (fun _ =>
      (cellNulls col.2 0).map (fun i => (col.1, i)))).flatten)).flatten

/-- Modelled from the spec: `validate(table)` of spec section 4.2.  No
call to pandera's `DataFrameModel.validate` occurs in the repository
sources (pandera is an external library), so the strict/no-coerce
validation is modelled from the spec's words: the column sets must agree
exactly, every non-null value must already be an instance of the declared
logical type, non-nullable columns must hold no nulls; on failure a single
aggregate `SchemaValidationError` enumerates every violation found in one
pass; on success the table is returned unchanged.  `validationError` is
that one pass: all missing columns, all unexpected columns, all type
mismatches and all null violations of the table against the contract. -/
def validationError (C : Contract) (T : Table) : SchemaValidationError :=
  ⟨(C.map ColumnContract.name).filter
      (fun n => !((T.map Prod.fst).contains n)),
   (T.map Prod.fst).filter
      (fun n => !((C.map ColumnContract.name).contains n)),
   typeViolations C T,
   nullViolations C T⟩

/-- Whether the one-pass scan found any violation at all. -/
def hasViolations (e : SchemaValidationError) : Bool :=
  !(e.missing.isEmpty && e.unexpected.isEmpty &&
    e.typeMismatches.isEmpty && e.nullViolations.isEmpty)

/-- Modelled from the spec: strict, no-coerce `validate(table)` (spec
section 4.2) — run the one-pass scan; fail with the aggregate error when
it found any violation, otherwise return the input table unchanged. -/
def validate (C : Contract) (T : Table) : Except SchemaValidationError Table :=
  if hasViolations (validationError C T) then
    Except.error (validationError C T)
  else
    Except.ok T

/-- The success condition of `validate` exactly as the spec words it
(section 8, fourth property): the table's column set equals the declared
column set, every non-null value in a declared column is an instance of
that column's logical type, and every non-nullable column has zero null
values. -/
def SpecValid (C : Contract) (T : Table) : Prop :=
  (∀ n, n ∈ T.map Prod.fst ↔ n ∈ C.map ColumnContract.name) ∧
  (∀ col ∈ T, ∀ c ∈ C, c.name = col.1 →
    (∀ v : PyValue, some v ∈ col.2 → valueMatches v c.dtype = true) ∧
    (c.nullable = false → none ∉ col.2))

/-- A default in-range value for each dtype a contract column can carry,
used to build concrete well-typed tables. -/
def defaultValue (t : PanderaDtype) : PyValue :=
  match t with
  | .bool => .bool true
  | .int | .int64 | .int32 | .int16 | .int8 => .int 0
  | _ => .str "x"

/-- A one-row table holding, for every declared column, one non-null value
of the declared dtype. -/
def mkValidTable (C : Contract) : Table :=
  C.map (fun c => (c.name, [some (defaultValue c.dtype)]))

/-- Modelled from the spec: the process-lifetime memoization cell that
`functools.lru_cache(maxsize=None)` (standard library, not part of this
repository) attaches to `_return_pandas_dtypes`, keyed by the contract
(the `cls` argument); spec section 4.2: computed lazily on first request,
cached thereafter, no invalidation path. -/
structure DtypeCache where
  cached : Option (List (String × Option String))
deriving DecidableEq, Repr

/-- The cache cell before the first call. -/
def emptyCache : DtypeCache := ⟨none⟩

/-- Modelled from the spec: one call to the memoized
`_return_pandas_dtypes` on the cache state of its contract.  Returns the
result, the new cache state, and the number of `_map_pandera_to_pandas_type`
invocations the call performed (a cache hit performs none; a miss runs the
dict comprehension, one mapper invocation per column; a raised error is
not cached, as `lru_cache` caches only returned values). -/
def return_pandas_dtypes_cached (cols : Contract) (s : DtypeCache) :
    Except String (List (String × Option String)) × DtypeCache × Nat :=
  match s.cached with
  | some r => (Except.ok r, s, 0)
  | none =>
    match _return_pandas_dtypes cols with
    | Except.ok r => (Except.ok r, ⟨some r⟩, cols.length)
    | Except.error e => (Except.error e, s, cols.length)

/-! ### Helper lemmas -/

/-- `dtypes` as the comprehension builds it, in declaration order. -/
def dtypesOf (cols : Contract) : List (String × Option String) :=
  cols.map (fun c => (c.name, _map_pandera_to_pandas_type c.dtype))

theorem dtypesOf_no_none (cols : Contract) :
    ((dtypesOf cols).map Prod.snd).contains none = false := by
  induction cols with
  | nil => rfl
  | cons c cs ih =>
    simp only [dtypesOf, List.map_cons, List.contains, List.elem_cons,
      _map_pandera_to_pandas_type] at ih ⊢
    simp [ih]

theorem return_pandas_dtypes_eq (cols : Contract) :
    _return_pandas_dtypes cols = Except.ok (dtypesOf cols) := by
  have h := dtypesOf_no_none cols
  simp only [dtypesOf] at h
  simp only [_return_pandas_dtypes, dtypesOf]
  rw [h]
  rfl

theorem mapLoop_eq_find (t : PanderaDtype) (l : List (PaCategory × String)) :
    mapLoop l t =
      (match l.find? (fun p => isinstanceOf t p.1) with
       | some p => p.2
       | none => DEFAULT_PANDAS_TYPE) := by
  induction l with
  | nil => rfl
  | cons q rest ih =>
    obtain ⟨b, p⟩ := q
    show (if isinstanceOf t b then p else mapLoop rest t) = _
    by_cases h : isinstanceOf t b
    · rw [if_pos h]
      have hf : List.find? (fun q => isinstanceOf t q.1) ((b, p) :: rest) =
          some (b, p) := by
        simp [List.find?_cons, h]
      rw [hf]
    · rw [if_neg h]
      have hf : List.find? (fun q => isinstanceOf t q.1) ((b, p) :: rest) =
          List.find? (fun q => isinstanceOf t q.1) rest := by
        simp [List.find?_cons, h]
      rw [hf]
      exact ih

/-! ### Claim theorems about the type mapper and dtype derivation -/

/-- C4: `_map_pandera_to_pandas_type` sends each of the six base pandera
dtype categories to exactly the native pandas storage type fixed by the
`mapping` dict (Text to "string", Integer to "Int64", Float to "Float64",
Boolean to "boolean", Timestamp to "datetime64[ns]", Category to
"category"), and, being a pure function, returns the same result on
repeated calls with the same input. -/
theorem typeMapper_fixed_table :
    _map_pandera_to_pandas_type .string = some "string" ∧
    _map_pandera_to_pandas_type .int = some "Int64" ∧
    _map_pandera_to_pandas_type .float = some "Float64" ∧
    _map_pandera_to_pandas_type .bool = some "boolean" ∧
    _map_pandera_to_pandas_type .dateTime = some "datetime64[ns]" ∧
    _map_pandera_to_pandas_type .category = some "category" ∧
    (∀ t : PanderaDtype,
      _map_pandera_to_pandas_type t = _map_pandera_to_pandas_type t) := by
  refine ⟨rfl, rfl, rfl, rfl, rfl, rfl, fun t => rfl⟩

/-- C8: the mapper tests the candidate base categories in the fixed
insertion order String, Integer, Float, Boolean, Timestamp, Category and
returns the native type of the first category the input is an instance
of; hence the refined 32-bit signed integer dtype, an instance of the
Integer category, resolves to "Int64" instead of falling through to the
default. -/
theorem typeMapper_first_match :
    mapping.map Prod.fst =
      [.string, .int, .float, .bool, .dateTime, .category] ∧
    (∀ (t : PanderaDtype) (l : List (PaCategory × String)),
      mapLoop l t =
        (match l.find? (fun p => isinstanceOf t p.1) with
         | some p => p.2
         | none => DEFAULT_PANDAS_TYPE)) ∧
    isinstanceOf .int32 .int = true ∧
    _map_pandera_to_pandas_type .int32 = some "Int64" := by
  exact ⟨rfl, fun t l => mapLoop_eq_find t l, rfl, rfl⟩

/-- C9: on an input that is an instance of none of the six listed
categories the mapper returns the fallback marker `DEFAULT_PANDAS_TYPE`
("object"); it returns a value (never raises) on every input. -/
theorem typeMapper_unmapped_fallback (t : PanderaDtype)
    (h : mapping.all (fun p => !(isinstanceOf t p.1)) = true) :
    _map_pandera_to_pandas_type t = some DEFAULT_PANDAS_TYPE := by
  cases t <;> first
    | rfl
    | (exfalso; revert h; decide)

/-- Witness for C9 at the pandera `Decimal` dtype, which belongs to none
of the six mapped categories. -/
theorem typeMapper_unmapped_fallback_witness :
    mapping.all (fun p => !(isinstanceOf .decimal p.1)) = true ∧
    _map_pandera_to_pandas_type .decimal = some DEFAULT_PANDAS_TYPE :=
  ⟨by decide, typeMapper_unmapped_fallback .decimal (by decide)⟩

/-- C3: the mapper returns a non-`None` value on every input (the
fallback is the string "object", not `None`), so the
`None in dtypes.values()` check of `_return_pandas_dtypes` is never true
and its `ValueError` branch is unreachable for every contract. -/
theorem unsupported_check_unreachable :
    (∀ t : PanderaDtype, (_map_pandera_to_pandas_type t).isSome = true) ∧
    (∀ cols : Contract,
      ((dtypesOf cols).map Prod.snd).contains none = false) ∧
    (∀ cols : Contract, (_return_pandas_dtypes cols).isOk = true) := by
  refine ⟨fun t => rfl, dtypesOf_no_none, fun cols => ?_⟩
  rw [return_pandas_dtypes_eq]
  rfl

/-- C6: for every contract, `_return_pandas_dtypes` returns the mapping
whose keys are exactly the contract's declared column names in
declaration order, each column mapped to the result of
`_map_pandera_to_pandas_type` on its dtype. -/
theorem derive_native_types_keys (cols : Contract) :
    _return_pandas_dtypes cols = Except.ok (dtypesOf cols) ∧
    (dtypesOf cols).map Prod.fst = cols.map ColumnContract.name ∧
    dtypesOf cols =
      cols.map (fun c => (c.name, _map_pandera_to_pandas_type c.dtype)) := by
  refine ⟨return_pandas_dtypes_eq cols, ?_, rfl⟩
  simp [dtypesOf]

/-- C2 (evaluation at the failing input): a contract declaring a column
of the unsupported `Decimal` dtype is NOT rejected —
`_return_pandas_dtypes` silently falls back to "object" and returns
successfully instead of raising, contrary to the fail-fast behaviour the
spec states and to the intent of the (unreachable) ValueError in the
source. -/
theorem unsupported_dtype_not_rejected :
    _return_pandas_dtypes [⟨"x", .decimal, false⟩] =
      Except.ok [("x", some DEFAULT_PANDAS_TYPE)] := by
  rfl

/-- C7: the memoized `_return_pandas_dtypes` computes the dtype mapping
on the first call and caches it; with a populated cache a call returns
the cached mapping unchanged with zero mapper invocations (and leaves the
cache untouched — the step function offers no invalidation path), so the
second call returns a result identical to the first. -/
theorem derive_native_types_cached (cols : Contract) :
    ((return_pandas_dtypes_cached cols emptyCache).2.1.cached =
      some (dtypesOf cols)) ∧
    (∀ (s : DtypeCache) (r : List (String × Option String)),
      s.cached = some r →
      return_pandas_dtypes_cached cols s = (Except.ok r, s, 0)) ∧
    (return_pandas_dtypes_cached cols
        (return_pandas_dtypes_cached cols emptyCache).2.1 =
      ((return_pandas_dtypes_cached cols emptyCache).1,
       (return_pandas_dtypes_cached cols emptyCache).2.1, 0)) := by
  have hstep : return_pandas_dtypes_cached cols emptyCache =
      (Except.ok (dtypesOf cols), ⟨some (dtypesOf cols)⟩, cols.length) := by
    unfold return_pandas_dtypes_cached emptyCache
    rw [return_pandas_dtypes_eq]
  have hhit : ∀ (s : DtypeCache) (r : List (String × Option String)),
      s.cached = some r →
      return_pandas_dtypes_cached cols s = (Except.ok r, s, 0) := by
    intro s r h
    unfold return_pandas_dtypes_cached
    rw [h]
  refine ⟨by rw [hstep], hhit, ?_⟩
  rw [hstep]
  exact hhit ⟨some (dtypesOf cols)⟩ (dtypesOf cols) rfl

/-- Witness for C7: with the EnzymePTM contract's mapping already cached,
a call is a cache hit returning the cached mapping with zero mapper
invocations. -/
theorem derive_native_types_cached_witness :
    (⟨some (dtypesOf enzymePTMColumns)⟩ : DtypeCache).cached =
      some (dtypesOf enzymePTMColumns) ∧
    return_pandas_dtypes_cached enzymePTMColumns
        ⟨some (dtypesOf enzymePTMColumns)⟩ =
      (Except.ok (dtypesOf enzymePTMColumns),
       ⟨some (dtypesOf enzymePTMColumns)⟩, 0) :=
  ⟨rfl, (derive_native_types_cached enzymePTMColumns).2.1
    ⟨some (dtypesOf enzymePTMColumns)⟩ (dtypesOf enzymePTMColumns) rfl⟩

/-! ### Validation lemmas -/

theorem cellTypeMismatches_eq_nil (t : PanderaDtype)
    (cells : List (Option PyValue)) (i : Nat) :
    cellTypeMismatches t cells i = [] ↔
      ∀ v : PyValue, some v ∈ cells → valueMatches v t = true := by
  induction cells generalizing i with
  | nil => simp [cellTypeMismatches]
  | cons c rest ih =>
    cases c with
    | none =>
      rw [show cellTypeMismatches t (none :: rest) i =
            cellTypeMismatches t rest (i + 1) from rfl, ih]
      simp
    | some v =>
      by_cases h : valueMatches v t
      · rw [show cellTypeMismatches t (some v :: rest) i =
              cellTypeMismatches t rest (i + 1) from by
            simp [cellTypeMismatches, h], ih]
        constructor
        · intro hr w hw
          rcases List.mem_cons.mp hw with h1 | h1
          · injection h1 with h2
            rw [h2]
            exact h
          · exact hr w h1
        · intro hr w hw
          exact hr w (List.mem_cons_of_mem _ hw)
      · rw [show cellTypeMismatches t (some v :: rest) i =
              i :: cellTypeMismatches t rest (i + 1) from by
            simp [cellTypeMismatches, h]]
        constructor
        · intro hc
          exact absurd hc (List.cons_ne_nil _ _)
        · intro hr
          exact absurd (hr v (List.mem_cons_self _ _)) (by simpa using h)

theorem cellNulls_eq_nil (cells : List (Option PyValue)) (i : Nat) :
    cellNulls cells i = [] ↔ none ∉ cells := by
  induction cells generalizing i with
  | nil => simp [cellNulls]
  | cons c rest ih =>
    cases c with
    | some v =>
      rw [show cellNulls (some v :: rest) i = cellNulls rest (i + 1) from rfl,
        ih]
      simp
    | none =>
      rw [show cellNulls (none :: rest) i = i :: cellNulls rest (i + 1)
        from rfl]
      constructor
      · intro hc
        exact absurd hc (List.cons_ne_nil _ _)
      · intro hn
        exact absurd (List.mem_cons_self _ _) hn

theorem typeViolations_eq_nil (C : Contract) (T : Table) :
    typeViolations C T = [] ↔
      ∀ col ∈ T, ∀ c ∈ C, c.name = col.1 →
        ∀ v : PyValue, some v ∈ col.2 → valueMatches v c.dtype = true := by
  unfold typeViolations
  rw [List.flatten_eq_nil_iff]
  constructor
  · intro h col hcol c hc hname v hv
    have h1 := h _ (List.mem_map_of_mem _ hcol)
    rw [List.flatten_eq_nil_iff] at h1
    have h2 := h1 _
      (List.mem_map_of_mem _ (List.mem_filter.mpr ⟨hc, by simp [hname]⟩))
    rw [List.map_eq_nil_iff] at h2
    exact (cellTypeMismatches_eq_nil _ _ _).mp h2 v hv
  · intro h l hl
    rw [List.mem_map] at hl
    obtain ⟨col, hcol, rfl⟩ := hl
    rw [List.flatten_eq_nil_iff]
    intro l2 hl2
    rw [List.mem_map] at hl2
    obtain ⟨c, hc, rfl⟩ := hl2
    rw [List.mem_filter] at hc
    rw [List.map_eq_nil_iff]
    exact (cellTypeMismatches_eq_nil _ _ _).mpr
      (h col hcol c hc.1 (by simpa using hc.2))

theorem nullViolations_eq_nil (C : Contract) (T : Table) :
    nullViolations C T = [] ↔
      ∀ col ∈ T, ∀ c ∈ C, c.name = col.1 → c.nullable = false →
        none ∉ col.2 := by
  unfold nullViolations
  rw [List.flatten_eq_nil_iff]
  constructor
  · intro h col hcol c hc hname hnul
    have h1 := h _ (List.mem_map_of_mem _ hcol)
    rw [List.flatten_eq_nil_iff] at h1
    have h2 := h1 _
      (List.mem_map_of_mem _ (List.mem_filter.mpr ⟨hc, by simp [hname, hnul]⟩))
    rw [List.map_eq_nil_iff] at h2
    exact (cellNulls_eq_nil _ _).mp h2
  · intro h l hl
    rw [List.mem_map] at hl
    obtain ⟨col, hcol, rfl⟩ := hl
    rw [List.flatten_eq_nil_iff]
    intro l2 hl2
    rw [List.mem_map] at hl2
    obtain ⟨c, hc, rfl⟩ := hl2
    rw [List.mem_filter] at hc
    have hc2 := hc.2
    rw [Bool.and_eq_true, beq_iff_eq, Bool.not_eq_true'] at hc2
    rw [List.map_eq_nil_iff]
    exact (cellNulls_eq_nil _ _).mpr (h col hcol c hc.1 hc2.1 hc2.2)

theorem validate_ok_iff_checks (C : Contract) (T : Table) :
    (∃ U, validate C T = Except.ok U) ↔
      ((validationError C T).missing = [] ∧
       (validationError C T).unexpected = [] ∧
       (validationError C T).typeMismatches = [] ∧
       (validationError C T).nullViolations = []) := by
  unfold validate
  by_cases h : hasViolations (validationError C T)
  · rw [if_pos h]
    constructor
    · rintro ⟨U, hU⟩
      cases hU
    · rintro ⟨h1, h2, h3, h4⟩
      exfalso
      rw [hasViolations] at h
      simp [h1, h2, h3, h4] at h
  · rw [if_neg h]
    constructor
    · intro _
      have h1 : (validationError C T).missing = [] ∧
          (validationError C T).unexpected = [] ∧
          (validationError C T).typeMismatches = [] ∧
          (validationError C T).nullViolations = [] := by
        simpa [hasViolations, List.isEmpty_iff, and_assoc] using h
      exact h1
    · intro _
      exact ⟨T, rfl⟩

theorem missing_unexpected_iff (C : Contract) (T : Table) :
    ((validationError C T).missing = [] ∧
     (validationError C T).unexpected = []) ↔
      (∀ n, n ∈ T.map Prod.fst ↔ n ∈ C.map ColumnContract.name) := by
  unfold validationError
  constructor
  · rintro ⟨h1, h2⟩ n
    rw [List.filter_eq_nil_iff] at h1 h2
    constructor
    · intro hn
      have h3 := h2 n hn
      simpa [List.elem_iff] using h3
    · intro hn
      have h3 := h1 n hn
      simpa [List.elem_iff] using h3
  · intro h
    refine ⟨?_, ?_⟩
    · rw [List.filter_eq_nil_iff]
      intro n hn
      simp [List.elem_iff, (h n).mpr hn]
    · rw [List.filter_eq_nil_iff]
      intro n hn
      simp [List.elem_iff, (h n).mp hn]

/-! ### Claim theorems about validation -/

/-- C1: `validate` succeeds on a table if and only if the table's column
set exactly equals the contract's declared column names, every non-null
value in each declared column is already an instance of the column's
declared logical type (no coercion), and every column declared
non-nullable contains zero null values. -/
theorem validate_iff_spec (C : Contract) (T : Table) :
    (∃ U, validate C T = Except.ok U) ↔ SpecValid C T := by
  rw [validate_ok_iff_checks]
  unfold SpecValid
  constructor
  · rintro ⟨h1, h2, h3, h4⟩
    refine ⟨(missing_unexpected_iff C T).mp ⟨h1, h2⟩, ?_⟩
    intro col hcol c hc hname
    exact ⟨(typeViolations_eq_nil C T).mp h3 col hcol c hc hname,
      fun hnul => (nullViolations_eq_nil C T).mp h4 col hcol c hc hname hnul⟩
  · rintro ⟨hset, hcols⟩
    have h12 := (missing_unexpected_iff C T).mpr hset
    refine ⟨h12.1, h12.2, ?_, ?_⟩
    · exact (typeViolations_eq_nil C T).mpr
        (fun col hcol c hc hname => (hcols col hcol c hc hname).1)
    · exact (nullViolations_eq_nil C T).mpr
        (fun col hcol c hc hname hnul => (hcols col hcol c hc hname).2 hnul)

/-- Witness for C1: the well-typed one-row EnzymePTM table validates, and
the equivalence instantiates to it. -/
theorem validate_iff_spec_witness :
    SpecValid enzymePTMColumns (mkValidTable enzymePTMColumns) :=
  (validate_iff_spec enzymePTMColumns (mkValidTable enzymePTMColumns)).mp
    ⟨mkValidTable enzymePTMColumns, rfl⟩

/-- A Networks table derived from the well-typed one-row table by
dropping the `omnipath` column, appending an extra `notes` column,
nulling the non-nullable `source_genesymbol` column and putting a boolean
into the string column `type`. -/
def networksTableMixedBad : Table :=
  (((mkValidTable networksColumns).filter
      (fun col => col.1 != "omnipath")).map
    (fun col =>
      if col.1 == "source_genesymbol" then (col.1, [none])
      else if col.1 == "type" then (col.1, [some (PyValue.bool true)])
      else col)) ++ [("notes", [some (PyValue.str "note")])]

/-- C5: a failing `validate` reports every violation found in one pass in
a single aggregate error; on the Networks table missing `omnipath` and
carrying an extra `notes` column (plus a null violation and a type
mismatch) the single error lists the missing column, the unexpected
column, the type mismatch and the null violation together. -/
theorem validate_reports_all_violations :
    ∃ e, validate networksColumns networksTableMixedBad = Except.error e ∧
      "omnipath" ∈ e.missing ∧ "notes" ∈ e.unexpected ∧
      ("type", 0) ∈ e.typeMismatches ∧
      ("source_genesymbol", 0) ∈ e.nullViolations :=
  ⟨⟨["omnipath"], ["notes"], [("type", 0)], [("source_genesymbol", 0)]⟩,
   rfl, by decide, by decide, by decide, by decide⟩

/-- C10: validation never mutates the data — whenever `validate`
succeeds it returns the input table itself — and `coerce` is declared
false for both concrete contracts (and in the shared base config), so no
value is converted. -/
theorem validate_no_mutation :
    (∀ (C : Contract) (T U : Table), validate C T = Except.ok U → U = T) ∧
    basePanderaConfig.coerce = false ∧
    networksConfig.coerce = false ∧
    enzymePTMConfig.coerce = false := by
  refine ⟨?_, rfl, rfl, rfl⟩
  intro C T U h
  unfold validate at h
  by_cases hv : hasViolations (validationError C T)
  · rw [if_pos hv] at h
    cases h
  · rw [if_neg hv] at h
    exact (Except.ok.inj h).symm

/-- Witness for C10: the well-typed one-row EnzymePTM table validates
successfully and is returned unchanged. -/
theorem validate_no_mutation_witness :
    validate enzymePTMColumns (mkValidTable enzymePTMColumns) =
      Except.ok (mkValidTable enzymePTMColumns) ∧
    mkValidTable enzymePTMColumns = mkValidTable enzymePTMColumns :=
  ⟨rfl,
   validate_no_mutation.1 enzymePTMColumns (mkValidTable enzymePTMColumns)
     (mkValidTable enzymePTMColumns) rfl⟩

end Omnipath
